/-
Verification of the StatEase statistical decision engine.

Shallow embedding of the core procedures of the repository:
data_cleaner.py (DataCleaner.get_cols_to_check, check_quality, apply_cleaning),
stat_analysis/ttest.py (independent_ttest),
stat_analysis/correlation.py (correlation_analysis),
stat_analysis/anova.py (one_way_anova),
stat_analysis/advanced.py (run_kmeans_clustering).

Modelling conventions:
- A pandas DataFrame is a list of column names, a list of per-column
  numeric-dtype flags, and a row-major list of rows; a cell is `Option Lit`
  with `none` standing for NaN/null.  Row identity is the positional index
  (the frames handled by the app carry the default RangeIndex).
- Columns are identified by position; pandas column-name lookup is the
  positional lookup here (the app never builds duplicate column names).
- Pandas equality semantics inside duplicated/drop_duplicates treats NaN
  cells as equal to each other, which matches plain decidable equality on
  `Option Lit`.
- Calls into scipy/statsmodels/sklearn are external library calls; they are
  modelled as fields of explicit oracle structures passed to the embedded
  functions, so every control-flow decision of the repository code is
  embedded exactly while the numeric kernels stay abstract.  Where a claim
  depends on a documented property of the external library (label range of
  KMeans, the length check of pairwise_tukeyhsd) that property appears as an
  explicit hypothesis or as a modelled check, noted at the definition.
- String formatting of the reports is represented by structured result
  values carrying the same decision content (error kinds with the data the
  message interpolates, report fields in source order).  Standard deviations
  are carried as sample variances since square roots leave the rationals;
  no claim depends on the displayed root.
-/
import Mathlib

namespace StatEase

/-- A non-null cell value: a number (modelled as a rational) or a string. -/
inductive Lit where
  | num (q : ℚ)
  | str (s : String)
deriving DecidableEq

/-- A cell of a DataFrame; `none` is NaN/null. -/
abbrev Cell := Option Lit

/-- Embedding of a pandas DataFrame: ordered column names, per-column
numeric-dtype flags (select_dtypes(include=[np.number])), and row-major data. -/
structure DataFrame where
  colNames : List String
  numericCol : List Bool
  rows : List (List Cell)
deriving DecidableEq

/-- The values of column `j` of a raw row list (df[col], positional). -/
def colOf (rows : List (List Cell)) (j : Nat) : List Cell :=
  rows.map (fun r => r.getD j none)

/-- The values of column `j` of a DataFrame. -/
def colValues (df : DataFrame) (j : Nat) : List Cell :=
  colOf df.rows j

/-- The character list of the lower-cased string (str.lower on the names
the app ever sees). -/
def lowerData (s : String) : List Char :=
  s.data.map Char.toLower

/-- Scan for an occurrence of the needle inside the haystack. -/
def listContains (needle : List Char) : List Char → Bool
  | [] => needle.isEmpty
  | c :: rest => needle.isPrefixOf (c :: rest) || listContains needle rest

/-- Containment of a token in the lower-cased string, as the Python `in`
operator on the lowered name. -/
def strContains (s t : String) : Bool :=
  listContains t.data (lowerData s)

/-- data_cleaner.py line 14-15: the lower-cased column name contains one of
the fixed ID-like tokens "id", "编号", "序号". -/
def idTokenName (name : String) : Bool :=
  strContains name "id" || strContains name "编号" || strContains name "序号"

/-- data_cleaner.py lines 15-18: a column is skipped by get_cols_to_check
when its name is ID-like and its values are pairwise distinct
(pandas Series.is_unique). -/
def idColFlag (df : DataFrame) (j : Nat) : Bool :=
  idTokenName (df.colNames.getD j "") && decide (colValues df j).Nodup

/-- DataCleaner.get_cols_to_check (data_cleaner.py lines 7-20): keep every
column except the ID-like all-distinct ones; if that keeps nothing, return
all columns.  Columns are returned as positional indices. -/
def get_cols_to_check (df : DataFrame) : List Nat :=
  let cols := (List.range df.colNames.length).filter (fun j => !idColFlag df j)
  if cols.isEmpty then List.range df.colNames.length else cols

/-- Projection of a row to the subset columns used for duplicate detection
(the tuple of values df.duplicated compares). -/
def projRow (S : List Nat) (r : List Cell) : List Cell :=
  S.map (fun j => r.getD j none)

/-- pandas duplicated(subset, keep=False) at row `i`: at least two rows of
the frame share the projection of row `i`. -/
def dupMaskAll (rows : List (List Cell)) (S : List Nat) (i : Nat) : Bool :=
  decide (2 ≤ ((Finset.range rows.length).filter
    (fun j => projRow S (rows.getD j []) = projRow S (rows.getD i []))).card)

/-- Embedding of the QualityReport dictionary built by check_quality
(data_cleaner.py lines 40-50).  The outliers entry (floating-point
quantile arithmetic, lines 52-61) is display-only diagnostics outside
every claim and is not carried. -/
structure QualityReport where
  nRows : Nat
  nCols : Nat
  subsetCols : List Nat
  duplicates : Nat
  duplicateIndices : List Nat
  missingCount : Nat
  missingIndices : List Nat
deriving DecidableEq

/-- DataCleaner.check_quality (data_cleaner.py lines 22-63): duplicate rows
flagged with keep=False over the inferred subset columns, missing-row
indices, and total null count. -/
def check_quality (df : DataFrame) : QualityReport :=
  let subset_cols := get_cols_to_check df
  let dupIdx := (List.range df.rows.length).filter (fun i => dupMaskAll df.rows subset_cols i)
  { nRows := df.rows.length
    nCols := df.colNames.length
    subsetCols := subset_cols
    duplicates := dupIdx.length
    duplicateIndices := dupIdx
    missingCount := (df.rows.map (fun r => r.countP (fun c => c.isNone))).sum
    missingIndices := (List.range df.rows.length).filter
      (fun i => (df.rows.getD i []).any (fun c => c.isNone)) }

/-- The missing_method values of a CleaningConfig (data_cleaner.py line 90). -/
inductive MissingMethod where
  | mean
  | median
  | drop
deriving DecidableEq

/-- Embedding of the cleaning configuration dictionary consumed by
apply_cleaning; `duplicate_subset = none` means all columns. -/
structure CleaningConfig where
  remove_duplicates : Bool
  duplicate_subset : Option (List Nat)
  handle_missing : Bool
  missing_method : MissingMethod
deriving DecidableEq

/-- One entry of the operation log built by apply_cleaning.  The log strings
are represented by the data they interpolate (counts and the all-columns
flag of the dedup message). -/
inductive LogEntry where
  | droppedDuplicates (n : Nat) (allCols : Bool)
  | droppedMissing (n : Nat)
  | filledColumns (n : Nat)
deriving DecidableEq

/-- The key a row is compared on by drop_duplicates: the whole row when no
subset is configured, else the projection to the subset columns. -/
def dupProj (subset : Option (List Nat)) (r : List Cell) : List Cell :=
  match subset with
  | none => r
  | some S => projRow S r

/-- Scan of drop_duplicates(keep=first): keep a row iff its key was not seen
on an earlier row. -/
def dropDupGo (f : List Cell → List Cell) (seen : List (List Cell)) :
    List (List Cell) → List (List Cell)
  | [] => []
  | r :: rs =>
    if f r ∈ seen then dropDupGo f seen rs
    else r :: dropDupGo f (f r :: seen) rs

/-- pandas DataFrame.drop_duplicates(subset, keep=first)
(data_cleaner.py line 81). -/
def dropDuplicatesFirstBy (f : List Cell → List Cell) (rows : List (List Cell)) :
    List (List Cell) :=
  dropDupGo f [] rows

/-- Spec-side reading of keep=first semantics: keep the head of each group
and delete every later row with the same key.  Used to state claim C4
against the embedded drop_duplicates. -/
def firstOccurrencesBy (f : List Cell → List Cell) : List (List Cell) → List (List Cell)
  | [] => []
  | r :: rs => r :: firstOccurrencesBy f (rs.filter (fun s => !decide (f s = f r)))
termination_by l => l.length
decreasing_by
  simp only [List.length_cons]
  exact Nat.lt_succ_of_le (List.length_filter_le _ _)

/-- Series.fillna at one cell: nulls become the fill value (itself possibly
null, in which case the cell stays null, as fillna with NaN). -/
def cellOr (c fv : Cell) : Cell :=
  match c with
  | some x => some x
  | none => fv

/-- The numeric content of a cell, if any. -/
def cellNum (c : Cell) : Option ℚ :=
  match c with
  | some (Lit.num q) => some q
  | _ => none

/-- Insertion sort on rationals (for the pandas median). -/
def sortInsert (x : ℚ) : List ℚ → List ℚ
  | [] => [x]
  | y :: ys => if x ≤ y then x :: y :: ys else y :: sortInsert x ys

/-- Insertion sort on rationals. -/
def sortQ : List ℚ → List ℚ
  | [] => []
  | x :: xs => sortInsert x (sortQ xs)

/-- pandas Series.median on the non-null values: middle element, or the mean
of the two middle elements for even length. -/
def medianQ (vs : List ℚ) : ℚ :=
  let s := sortQ vs
  let n := s.length
  if n % 2 = 1 then s.getD (n / 2) 0
  else (s.getD (n / 2 - 1) 0 + s.getD (n / 2) 0) / 2

/-- The fill value of a numeric column (data_cleaner.py lines 106-111):
mean or median of the non-null values; the mean/median of an all-null
column is itself NaN, i.e. `none`. -/
def numFill (method : MissingMethod) (col : List Cell) : Cell :=
  let vs := col.filterMap cellNum
  if vs.isEmpty then none
  else
    match method with
    | MissingMethod.median => some (Lit.num (medianQ vs))
    | _ => some (Lit.num (vs.sum / (vs.length : ℚ)))

/-- Ordering on literals used to pick the pandas mode representative
(mode() sorts the most frequent values; numbers and strings never mix in
one well-typed column, numbers sort before strings here). -/
def litLT (a b : Lit) : Bool :=
  match a, b with
  | Lit.num p, Lit.num q => decide (p < q)
  | Lit.num _, Lit.str _ => true
  | Lit.str _, Lit.num _ => false
  | Lit.str s, Lit.str t => decide (s < t)

/-- First-occurrence deduplication of literals (helper for the mode). -/
def litDedup (seen : List Lit) : List Lit → List Lit
  | [] => []
  | a :: l => if a ∈ seen then litDedup seen l else a :: litDedup (a :: seen) l

/-- pandas Series.mode()[0] on the non-null values: the smallest among the
most frequent values. -/
def pickMode (vs : List Lit) : Lit :=
  (litDedup [] vs).foldl
    (fun best c =>
      if vs.count c > vs.count best ∨ (vs.count c = vs.count best ∧ litLT c best) then c
      else best)
    (vs.headD (Lit.str "Unknown"))

/-- The fill value of a non-numeric column (data_cleaner.py lines 114-119):
the mode, or the sentinel "Unknown" when the column is entirely null. -/
def modeFill (col : List Cell) : Cell :=
  let vs := col.filterMap id
  if vs.isEmpty then some (Lit.str "Unknown")
  else some (pickMode vs)

/-- One iteration of the fill loop (data_cleaner.py lines 103-121) at column
`j`: if the column has at least one null, fill it (mean/median for numeric
dtype, mode/sentinel otherwise) and report that the column was counted. -/
def fillStep (dtypes : List Bool) (method : MissingMethod)
    (rows : List (List Cell)) (j : Nat) : List (List Cell) × Bool :=
  if 0 < (colOf rows j).countP (fun c => c.isNone) then
    let fv := if dtypes.getD j false then numFill method (colOf rows j)
              else modeFill (colOf rows j)
    (rows.map (fun r => r.set j (cellOr (r.getD j none) fv)), true)
  else (rows, false)

/-- The fill loop over the columns, returning the new rows and filled_count. -/
def fillLoop (dtypes : List Bool) (method : MissingMethod) :
    List Nat → List (List Cell) → List (List Cell) × Nat
  | [], rows => (rows, 0)
  | j :: js, rows =>
    let s := fillStep dtypes method rows j
    let rest := fillLoop dtypes method js s.1
    (rest.1, (if s.2 then 1 else 0) + rest.2)

/-- DataCleaner.apply_cleaning (data_cleaner.py lines 65-128): duplicates
first, then missing values, then the index reset (a no-op here since rows
are positional).  Log entries are appended only for changes actually
performed, as in the source. -/
def apply_cleaning (df : DataFrame) (cfg : CleaningConfig) : DataFrame × List LogEntry :=
  let step1 :=
    if cfg.remove_duplicates then
      let rows1 := dropDuplicatesFirstBy (dupProj cfg.duplicate_subset) df.rows
      (rows1,
        if rows1.length < df.rows.length then
          [LogEntry.droppedDuplicates (df.rows.length - rows1.length) cfg.duplicate_subset.isNone]
        else [])
    else (df.rows, ([] : List LogEntry))
  let step2 :=
    if cfg.handle_missing then
      match cfg.missing_method with
      | MissingMethod.drop =>
        let rows2 := step1.1.filter (fun r => !r.any (fun c => c.isNone))
        (rows2,
          if rows2.length < step1.1.length then
            [LogEntry.droppedMissing (step1.1.length - rows2.length)]
          else [])
      | m =>
        let p := fillLoop df.numericCol m (List.range df.colNames.length) step1.1
        (p.1, if 0 < p.2 then [LogEntry.filledColumns p.2] else [])
    else (step1.1, ([] : List LogEntry))
  ({ df with rows := step2.1 }, step1.2 ++ step2.2)

/-- Scan of pandas Series.unique: distinct values in order of first
occurrence. -/
def pdUniqueGo {G : Type} [DecidableEq G] (seen : List G) : List G → List G
  | [] => []
  | a :: l => if a ∈ seen then pdUniqueGo seen l else a :: pdUniqueGo (a :: seen) l

/-- pandas Series.unique (distinct values, first-occurrence order). -/
def pdUnique {G : Type} [DecidableEq G] (l : List G) : List G :=
  pdUniqueGo [] l

/-- df[df[group_col] == g][value_col].dropna(): the non-null values of the
value column on the rows whose group cell equals `g` (a null group cell
never equals a literal, as in pandas). -/
def groupValues {G : Type} [DecidableEq G]
    (gc : List (Option G)) (vc : List (Option ℚ)) (g : G) : List ℚ :=
  (gc.zip vc).filterMap (fun p => if p.1 = some g then p.2 else none)

/-- np.mean of a list of rationals. -/
def listMean (l : List ℚ) : ℚ := l.sum / (l.length : ℚ)

/-- Square of np.std(ddof=1): the sample variance. -/
def sampleVar (l : List ℚ) : ℚ :=
  (l.map (fun x => (x - listMean l) ^ 2)).sum / ((l.length : ℚ) - 1)

/-- Square of the pooled standard deviation of ttest.py lines 40-42. -/
def pooledVar (d1 d2 : List ℚ) : ℚ :=
  (((d1.length : ℚ) - 1) * sampleVar d1 + ((d2.length : ℚ) - 1) * sampleVar d2) /
    ((d1.length : ℚ) + (d2.length : ℚ) - 2)

/-- The scipy kernels called by independent_ttest: levene returns the
(statistic, p-value) pair, ttest_ind takes the equal_var flag and returns
(t, p). -/
structure SciPyTTest where
  levene : List ℚ → List ℚ → ℚ × ℚ
  ttestInd : List ℚ → List ℚ → Bool → ℚ × ℚ

/-- Outcome of independent_ttest: the two report-level error messages of
ttest.py lines 16 and 25 (with the data the group-count message
interpolates), or the full report.  Report fields appear in source order;
standard deviations are carried as variances, the Cohen d numerator and the
squared pooled standard deviation stand for the displayed effect size. -/
inductive TTestOutcome (G : Type) where
  | groupCountError (found : Nat) (groups : List G)
  | insufficientSample
  | report (g1 g2 : G) (n1 n2 : Nat) (m1 m2 var1 var2 : ℚ)
      (levStat levP : ℚ) (equalVar : Bool) (tStat pVal : ℚ)
      (meanDiff pooled : ℚ)
deriving DecidableEq

/-- independent_ttest (stat_analysis/ttest.py lines 5-70). -/
def independent_ttest {G : Type} [DecidableEq G] (sp : SciPyTTest)
    (gc : List (Option G)) (vc : List (Option ℚ)) : TTestOutcome G :=
  match pdUnique (gc.filterMap id) with
  | [g1, g2] =>
    let d1 := groupValues gc vc g1
    let d2 := groupValues gc vc g2
    if d1.length < 2 ∨ d2.length < 2 then TTestOutcome.insufficientSample
    else
      let lev := sp.levene d1 d2
      let equal_var := decide ((1 : ℚ) / 20 < lev.2)
      let tp := sp.ttestInd d1 d2 equal_var
      TTestOutcome.report g1 g2 d1.length d2.length (listMean d1) (listMean d2)
        (sampleVar d1) (sampleVar d2) lev.1 lev.2 equal_var tp.1 tp.2
        (listMean d1 - listMean d2) (pooledVar d1 d2)
  | gs => TTestOutcome.groupCountError gs.length gs

/-- The scipy kernels called by correlation_analysis: the p-values of the
two normality tests and the (r, p) pairs of the two correlation methods. -/
structure SciPyCorr where
  shapiro : List ℚ → ℚ
  kstest : List ℚ → ℚ
  pearson : List ℚ → List ℚ → ℚ × ℚ
  spearman : List ℚ → List ℚ → ℚ × ℚ

/-- A variable handed to correlation_analysis: the dtype-is-numeric flag of
the selected column and its cells.  Cells of a non-numeric column are
abstracted as rationals too; the code only ever uses them after confirming
a numeric dtype. -/
structure CorrVar where
  numericDtype : Bool
  values : List (Option ℚ)
deriving DecidableEq

/-- Outcome of correlation_analysis: the report-level errors of
correlation.py lines 20 and 23 (with the interpolated sample size and dtype
flags), or the report fields. -/
inductive CorrOutcome where
  | insufficientSample (n : Nat)
  | typeMismatch (numeric1 numeric2 : Bool)
  | report (n : Nat) (norm1 norm2 usePearson : Bool) (r pVal : ℚ)
deriving DecidableEq

/-- Whether an outcome is the type-mismatch error. -/
def CorrOutcome.isTypeMismatch : CorrOutcome → Bool
  | CorrOutcome.typeMismatch _ _ => true
  | _ => false

/-- df[[var1, var2]].dropna(): the value pairs of the rows where both
variables are non-null. -/
def corrPairs (v1 v2 : List (Option ℚ)) : List (ℚ × ℚ) :=
  (v1.zip v2).filterMap (fun p =>
    match p.1, p.2 with
    | some a, some b => some (a, b)
    | _, _ => none)

/-- check_normality of correlation.py lines 27-32: Kolmogorov-Smirnov for
more than 50 observations, Shapiro-Wilk otherwise; normal iff p > 0.05. -/
def checkNormality (sp : SciPyCorr) (series : List ℚ) : Bool :=
  decide ((1 : ℚ) / 20 < (if 50 < series.length then sp.kstest series else sp.shapiro series))

/-- correlation_analysis (stat_analysis/correlation.py lines 5-85). -/
def correlation_analysis (sp : SciPyCorr) (v1 v2 : CorrVar) : CorrOutcome :=
  let pairs := corrPairs v1.values v2.values
  let n := pairs.length
  if n < 3 then CorrOutcome.insufficientSample n
  else if !v1.numericDtype || !v2.numericDtype then
    CorrOutcome.typeMismatch v1.numericDtype v2.numericDtype
  else
    let x := pairs.map Prod.fst
    let y := pairs.map Prod.snd
    let norm1 := checkNormality sp x
    let norm2 := checkNormality sp y
    let use_pearson := norm1 && norm2
    let rp := if use_pearson then sp.pearson x y else sp.spearman x y
    CorrOutcome.report n norm1 norm2 use_pearson rp.1 rp.2

/-- The external kernels called by one_way_anova: scipy levene and f_oneway
over the list of group samples, and the Tukey table builder of statsmodels
(rows of group pair, mean difference, adjusted p, reject flag). -/
structure AnovaKernels (G : Type) where
  levene : List (List ℚ) → ℚ × ℚ
  fOneway : List (List ℚ) → ℚ × ℚ
  tukeyTable : List ℚ → List G → List (G × G × ℚ × ℚ × Bool)

/-- statsmodels pairwise_tukeyhsd: models the library validation that endog
and groups must have the same length, raising ValueError otherwise; the
table itself stays an abstract kernel. -/
def pairwise_tukeyhsd {G : Type} (tk : List ℚ → List G → List (G × G × ℚ × ℚ × Bool))
    (endog : List ℚ) (groups : List G) : Except String (List (G × G × ℚ × ℚ × Bool)) :=
  if endog.length = groups.length then Except.ok (tk endog groups)
  else Except.error "endog and groups must have the same length"

/-- Outcome of one_way_anova when it returns normally: the hint of anova.py
line 17, the per-group sample-size error of line 25 (with the offending
group), or the report fields (the Tukey table is always computed, line 40,
even though it is only printed for p below 0.05). -/
inductive AnovaOutcome (G : Type) where
  | hint (nGroups : Nat)
  | insufficientGroup (g : G)
  | report (levStat levP fStat pVal : ℚ) (tukey : List (G × G × ℚ × ℚ × Bool))

/-- one_way_anova (stat_analysis/anova.py lines 6-81).  Report-level
validation messages are ordinary return values; an exception escaping the
function (the statsmodels length check) is the Except.error case. -/
def one_way_anova {G : Type} [DecidableEq G] (ker : AnovaKernels G)
    (gc : List (Option G)) (vc : List (Option ℚ)) : Except String (AnovaOutcome G) :=
  let groups := pdUnique (gc.filterMap id)
  if groups.length < 3 then Except.ok (AnovaOutcome.hint groups.length)
  else
    match groups.find? (fun g => (groupValues gc vc g).length < 2) with
    | some g => Except.ok (AnovaOutcome.insufficientGroup g)
    | none =>
      let gdata := groups.map (fun g => groupValues gc vc g)
      let lev := ker.levene gdata
      let fp := ker.fOneway gdata
      (pairwise_tukeyhsd ker.tukeyTable (vc.filterMap id) (gc.filterMap id)).map
        (fun tbl => AnovaOutcome.report lev.1 lev.2 fp.1 fp.2 tbl)

/-- The sklearn kernels called by run_kmeans_clustering: the scaler, its
inverse, and the fitted KMeans attributes as functions of (k, scaled data). -/
structure SKLearnKMeans where
  scale : List (List ℚ) → List (List ℚ)
  unscale : List (List ℚ) → List (List ℚ)
  kmLabels : Nat → List (List ℚ) → List Nat
  kmIter : Nat → List (List ℚ) → Nat
  kmInertia : Nat → List (List ℚ) → ℚ
  kmCenters : Nat → List (List ℚ) → List (List ℚ)

/-- Outcome of run_kmeans_clustering: the report-level error of advanced.py
line 99 (with the interpolated usable count and k), or the labelled rows
(result_df with its 1-based Cluster column) plus the report numbers and the
de-standardized centers. -/
inductive KMeansOutcome where
  | insufficientSample (nUsable k : Nat)
  | ok (labeled : List (List ℚ × Nat)) (iters : Nat) (inertia : ℚ)
      (centers : List (List ℚ))

/-- The labels attached to the returned rows. -/
def KMeansOutcome.clusterLabels : KMeansOutcome → List Nat
  | KMeansOutcome.insufficientSample _ _ => []
  | KMeansOutcome.ok labeled _ _ _ => labeled.map Prod.snd

/-- df[columns].dropna(): the fully non-null rows of the selected numeric
sub-frame. -/
def kmeansUsable (rows : List (List (Option ℚ))) : List (List ℚ) :=
  rows.filterMap (fun r => if r.all (fun c => c.isSome) then some (r.filterMap id) else none)

/-- run_kmeans_clustering (stat_analysis/advanced.py lines 88-144), on the
selected numeric sub-frame. -/
def run_kmeans_clustering (sk : SKLearnKMeans)
    (rows : List (List (Option ℚ))) (k : Nat) : KMeansOutcome :=
  let data := kmeansUsable rows
  if data.length < k then KMeansOutcome.insufficientSample data.length k
  else
    let X := sk.scale data
    let labels := sk.kmLabels k X
    KMeansOutcome.ok (data.zip (labels.map (fun l => l + 1)))
      (sk.kmIter k X) (sk.kmInertia k X) (sk.unscale (sk.kmCenters k X))

/-! ### Theorems -/

/-- Concrete stand-in for the scipy t-test kernels, used by witnesses. -/
def spTTest0 : SciPyTTest :=
  { levene := fun _ _ => (0, 0), ttestInd := fun _ _ _ => (0, 0) }

/-- Claim C1: whenever the grouping column has a number of distinct non-null
values different from 2, independent_ttest does not run the test and returns
the group-count error carrying the actual number of distinct groups found. -/
theorem ttest_group_count_guard {G : Type} [DecidableEq G] (sp : SciPyTTest)
    (gc : List (Option G)) (vc : List (Option ℚ))
    (h : (pdUnique (gc.filterMap id)).length ≠ 2) :
    independent_ttest sp gc vc =
      TTestOutcome.groupCountError (pdUnique (gc.filterMap id)).length
        (pdUnique (gc.filterMap id)) := by
  rcases hu : pdUnique (gc.filterMap id) with _ | ⟨a, _ | ⟨b, _ | ⟨c, t⟩⟩⟩
  · simp [independent_ttest, hu]
  · simp [independent_ttest, hu]
  · rw [hu] at h; simp at h
  · simp [independent_ttest, hu]

/-- Witness for C1: a grouping column with 3 distinct non-null values. -/
theorem ttest_group_count_guard_witness :
    (pdUnique (([some "a", some "b", some "c", none] : List (Option String)).filterMap id)).length ≠ 2
    ∧ independent_ttest spTTest0 ([some "a", some "b", some "c", none] : List (Option String))
        ([some 1, some 2, some 3, some 4] : List (Option ℚ))
      = TTestOutcome.groupCountError 3 ["a", "b", "c"] :=
  ⟨by decide,
   (ttest_group_count_guard spTTest0 _ _ (by decide)).trans (by decide)⟩

/-- Claim C5: on a valid two-sample input (exactly two groups, each with at
least two observations) the test variant is selected by the Levene p-value
at 0.05: the equal_var flag handed to ttest_ind is true exactly when the
Levene p exceeds 1/20, and the reported t and p come from ttest_ind called
with that flag. -/
theorem ttest_variant_selection {G : Type} [DecidableEq G] (sp : SciPyTTest)
    (gc : List (Option G)) (vc : List (Option ℚ)) (g1 g2 : G)
    (hg : pdUnique (gc.filterMap id) = [g1, g2])
    (h1 : 2 ≤ (groupValues gc vc g1).length)
    (h2 : 2 ≤ (groupValues gc vc g2).length) :
    independent_ttest sp gc vc =
      (let d1 := groupValues gc vc g1
       let d2 := groupValues gc vc g2
       let lev := sp.levene d1 d2
       let equal_var := decide ((1 : ℚ) / 20 < lev.2)
       let tp := sp.ttestInd d1 d2 equal_var
       TTestOutcome.report g1 g2 d1.length d2.length (listMean d1) (listMean d2)
         (sampleVar d1) (sampleVar d2) lev.1 lev.2 equal_var tp.1 tp.2
         (listMean d1 - listMean d2) (pooledVar d1 d2)) := by
  simp only [independent_ttest, hg]
  rw [if_neg]
  omega

/-- Witness for C5: two groups of two observations each under a concrete
kernel whose Levene p is 0, so the Welch flag is selected (equal_var =
false) and ttest_ind is called with it. -/
theorem ttest_variant_selection_witness :
    pdUnique (([some "x", some "x", some "y", some "y"] : List (Option String)).filterMap id)
        = ["x", "y"]
    ∧ 2 ≤ (groupValues ([some "x", some "x", some "y", some "y"] : List (Option String))
        ([some 1, some 2, some 3, some 4] : List (Option ℚ)) "x").length
    ∧ 2 ≤ (groupValues ([some "x", some "x", some "y", some "y"] : List (Option String))
        ([some 1, some 2, some 3, some 4] : List (Option ℚ)) "y").length
    ∧ independent_ttest spTTest0 ([some "x", some "x", some "y", some "y"] : List (Option String))
        ([some 1, some 2, some 3, some 4] : List (Option ℚ))
      = TTestOutcome.report "x" "y" 2 2 (3 / 2) (7 / 2) (1 / 2) (1 / 2) 0 0 false 0 0 (-2) (1 / 2) :=
  ⟨by decide, by decide, by decide,
   (ttest_variant_selection spTTest0 _ _ "x" "y" (by decide) (by decide) (by decide)).trans
     (by norm_num +decide [groupValues, listMean, sampleVar, pooledVar, spTTest0,
       List.zip, List.zipWith, List.filterMap])⟩

/-- A DataFrame with three rows and no columns: the degenerate input on
which the ID heuristic returns an empty subset. -/
def dfNoCols : DataFrame := { colNames := [], numericCol := [], rows := [[], [], []] }

/-- Counterexample for C2 as stated: on a dataset with no columns (three
rows, so the loaded-dataset row-count contract still holds) the returned
subset is empty, so it is not true that the returned subset is never empty
for every dataset. -/
theorem get_cols_to_check_never_empty_cex :
    get_cols_to_check dfNoCols = [] ∧ dfNoCols.rows.length = 3 :=
  ⟨rfl, rfl⟩

/-- Claim C2 (amended): outside the all-columns-flagged fallback, a column
is excluded from the returned subset exactly when its lower-cased name
contains an ID-like token and its values are pairwise distinct; if every
column is flagged, the full ordered column list is returned; and on a
dataset with at least one column the returned subset is never empty. -/
theorem get_cols_to_check_id_heuristic (df : DataFrame) (j : Nat) :
    ((¬ ∀ i, i < df.colNames.length → idColFlag df i = true) →
      j < df.colNames.length →
      (j ∉ get_cols_to_check df ↔ idColFlag df j = true))
    ∧ ((∀ i, i < df.colNames.length → idColFlag df i = true) →
      get_cols_to_check df = List.range df.colNames.length)
    ∧ (df.colNames ≠ [] → get_cols_to_check df ≠ []) := by
  refine ⟨?_, ?_, ?_⟩
  · intro hne hj
    push_neg at hne
    obtain ⟨i, hi, hflag⟩ := hne
    have hmem : i ∈ (List.range df.colNames.length).filter (fun i => !idColFlag df i) := by
      simp only [List.mem_filter, List.mem_range, Bool.not_eq_true']
      exact ⟨hi, by simpa using hflag⟩
    have hempty : ((List.range df.colNames.length).filter
        (fun i => !idColFlag df i)).isEmpty = false := by
      rcases h : (List.range df.colNames.length).filter (fun i => !idColFlag df i) with _ | _
      · rw [h] at hmem; exact absurd hmem (List.not_mem_nil i)
      · rfl
    simp only [get_cols_to_check, hempty, Bool.false_eq_true, if_false,
      List.mem_filter, List.mem_range, Bool.not_eq_true', not_and, hj, true_implies]
    constructor
    · intro h
      by_contra hcon
      exact absurd (h (by simpa using hcon)) (by simp)
    · intro h hcon
      rw [h] at hcon
      exact absurd hcon (by simp)
  · intro hall
    have h : (List.range df.colNames.length).filter (fun i => !idColFlag df i) = [] := by
      rw [List.filter_eq_nil_iff]
      intro a ha
      rw [List.mem_range] at ha
      simp [hall a ha]
    simp [get_cols_to_check, h]
  · intro hne
    have hn : 0 < df.colNames.length := List.length_pos.mpr hne
    simp only [get_cols_to_check]
    rcases h : ((List.range df.colNames.length).filter (fun i => !idColFlag df i)).isEmpty with _ | _
    · simp only [h, Bool.false_eq_true, if_false]
      intro hcon
      rw [hcon] at h
      simp at h
    · simp only [h, if_true]
      intro hcon
      rw [List.range_eq_nil] at hcon
      omega

/-- A two-column frame: an all-distinct "id" column and a non-ID column. -/
def dfIdCols : DataFrame :=
  { colNames := ["id", "name"]
    numericCol := [true, false]
    rows := [[some (Lit.num 1), some (Lit.str "u")], [some (Lit.num 2), some (Lit.str "u")]] }

/-- Witness for C2: on a frame with an all-distinct "id" column and a plain
column, the heuristic excludes exactly the flagged column and the returned
subset is nonempty. -/
theorem get_cols_to_check_id_heuristic_witness :
    (¬ ∀ i, i < dfIdCols.colNames.length → idColFlag dfIdCols i = true)
    ∧ (0 ∉ get_cols_to_check dfIdCols ↔ idColFlag dfIdCols 0 = true)
    ∧ (dfIdCols.colNames ≠ [])
    ∧ get_cols_to_check dfIdCols ≠ [] :=
  ⟨by decide,
   (get_cols_to_check_id_heuristic dfIdCols 0).1 (by decide) (by decide),
   by decide,
   (get_cols_to_check_id_heuristic dfIdCols 0).2.2 (by decide)⟩

/-- Membership in the duplicate-index list of the quality report. -/
theorem mem_duplicateIndices (df : DataFrame) (i : Nat) :
    i ∈ (check_quality df).duplicateIndices ↔
      i < df.rows.length ∧ dupMaskAll df.rows (get_cols_to_check df) i = true := by
  simp [check_quality, List.mem_filter, List.mem_range]

/-- Claim C3: in the quality report, two distinct rows agreeing on every
subset column are both flagged as duplicates, and a row sharing its subset
projection with no other row is never flagged. -/
theorem check_quality_duplicate_flagging (df : DataFrame) (i j : Nat) :
    (i < df.rows.length → j < df.rows.length → i ≠ j →
      projRow (check_quality df).subsetCols (df.rows.getD i []) =
        projRow (check_quality df).subsetCols (df.rows.getD j []) →
      i ∈ (check_quality df).duplicateIndices ∧ j ∈ (check_quality df).duplicateIndices)
    ∧ ((∀ j2, j2 < df.rows.length → j2 ≠ i →
        projRow (check_quality df).subsetCols (df.rows.getD j2 []) ≠
          projRow (check_quality df).subsetCols (df.rows.getD i [])) →
      i ∉ (check_quality df).duplicateIndices) := by
  have hsub : (check_quality df).subsetCols = get_cols_to_check df := rfl
  constructor
  · intro hi hj hne hproj
    rw [hsub] at hproj
    have hmask : ∀ a b : Nat, a < df.rows.length → b < df.rows.length → a ≠ b →
        projRow (get_cols_to_check df) (df.rows.getD a []) =
          projRow (get_cols_to_check df) (df.rows.getD b []) →
        dupMaskAll df.rows (get_cols_to_check df) a = true := by
      intro a b ha hb hab heq
      unfold dupMaskAll
      rw [decide_eq_true_iff]
      have h1 : a ∈ (Finset.range df.rows.length).filter
          (fun j2 => projRow (get_cols_to_check df) (df.rows.getD j2 []) =
            projRow (get_cols_to_check df) (df.rows.getD a [])) :=
        Finset.mem_filter.mpr ⟨Finset.mem_range.mpr ha, rfl⟩
      have h2 : b ∈ (Finset.range df.rows.length).filter
          (fun j2 => projRow (get_cols_to_check df) (df.rows.getD j2 []) =
            projRow (get_cols_to_check df) (df.rows.getD a [])) :=
        Finset.mem_filter.mpr ⟨Finset.mem_range.mpr hb, heq.symm⟩
      exact Finset.one_lt_card.mpr ⟨a, h1, b, h2, hab⟩
    constructor
    · exact (mem_duplicateIndices df i).mpr ⟨hi, hmask i j hi hj hne hproj⟩
    · exact (mem_duplicateIndices df j).mpr ⟨hj, hmask j i hj hi (Ne.symm hne) hproj.symm⟩
  · intro huniq hmem
    rw [mem_duplicateIndices] at hmem
    obtain ⟨hi, hmask⟩ := hmem
    unfold dupMaskAll at hmask
    rw [decide_eq_true_iff] at hmask
    have hle : ((Finset.range df.rows.length).filter
        (fun j2 => projRow (get_cols_to_check df) (df.rows.getD j2 []) =
          projRow (get_cols_to_check df) (df.rows.getD i []))).card ≤ 1 := by
      apply Finset.card_le_one.mpr
      intro a ha b hb
      rw [Finset.mem_filter, Finset.mem_range] at ha hb
      have haa : a = i := by
        by_contra hcon
        exact absurd ha.2 (huniq a ha.1 hcon)
      have hbb : b = i := by
        by_contra hcon
        exact absurd hb.2 (huniq b hb.1 hcon)
      rw [haa, hbb]
    omega

/-- A one-column frame with two equal rows and one distinct row. -/
def dfDup : DataFrame :=
  { colNames := ["a"]
    numericCol := [true]
    rows := [[some (Lit.num 1)], [some (Lit.num 1)], [some (Lit.num 2)]] }

/-- Witness for C3: both copies of the duplicated row are flagged and the
unique row is not. -/
theorem check_quality_duplicate_flagging_witness :
    (0 ∈ (check_quality dfDup).duplicateIndices ∧ 1 ∈ (check_quality dfDup).duplicateIndices)
    ∧ 2 ∉ (check_quality dfDup).duplicateIndices :=
  ⟨(check_quality_duplicate_flagging dfDup 0 1).1 (by decide) (by decide) (by decide) (by decide),
   (check_quality_duplicate_flagging dfDup 2 0).2 (by decide)⟩

/-- Length of the keep-first scan: one row per distinct key outside the
seen set. -/
theorem dropDupGo_length (f : List Cell → List Cell) (l : List (List Cell)) :
    ∀ seen : List (List Cell),
      (dropDupGo f seen l).length = ((l.map f).toFinset \ seen.toFinset).card := by
  induction l with
  | nil => intro seen; simp [dropDupGo]
  | cons a l ih =>
    intro seen
    by_cases h : f a ∈ seen
    · simp only [dropDupGo, if_pos h, ih]
      rw [List.map_cons, List.toFinset_cons, Finset.insert_sdiff_of_mem]
      exact List.mem_toFinset.mpr h
    · simp only [dropDupGo, if_neg h, List.length_cons, ih, List.map_cons, List.toFinset_cons]
      have hfa : f a ∉ (l.map f).toFinset \ insert (f a) seen.toFinset := by
        simp
      have hset : insert (f a) (l.map f).toFinset \ seen.toFinset
          = insert (f a) ((l.map f).toFinset \ insert (f a) seen.toFinset) := by
        ext x
        by_cases hx : x = f a
        · subst hx
          simp [Finset.mem_sdiff, List.mem_toFinset, h]
        · simp only [Finset.mem_sdiff, Finset.mem_insert, hx, false_or]
      rw [hset, Finset.card_insert_of_not_mem hfa]

/-- The keep-first scan agrees with the first-occurrence reading, relative
to an already-seen key set. -/
theorem dropDupGo_eq_firstOcc (f : List Cell → List Cell) (l : List (List Cell)) :
    ∀ seen : List (List Cell),
      dropDupGo f seen l
        = firstOccurrencesBy f (l.filter (fun r => !decide (f r ∈ seen))) := by
  induction l with
  | nil => intro seen; simp [dropDupGo, firstOccurrencesBy]
  | cons a l ih =>
    intro seen
    by_cases h : f a ∈ seen
    · simp only [dropDupGo, if_pos h, List.filter_cons, decide_eq_true_eq]
      rw [if_neg (by simp [h])]
      exact ih seen
    · simp only [dropDupGo, if_neg h, List.filter_cons]
      rw [if_pos (by simp [h])]
      rw [firstOccurrencesBy, ih (f a :: seen), List.filter_filter]
      congr 1
      congr 1
      apply List.filter_congr
      intro r _
      by_cases h1 : f r = f a <;> by_cases h2 : f r ∈ seen <;> simp [h1, h2]

/-- drop_duplicates(keep=first) keeps exactly the first occurrence of each
key group. -/
theorem dropDuplicatesFirstBy_eq (f : List Cell → List Cell) (l : List (List Cell)) :
    dropDuplicatesFirstBy f l = firstOccurrencesBy f l := by
  unfold dropDuplicatesFirstBy
  rw [dropDupGo_eq_firstOcc]
  congr 1
  simp

/-- drop_duplicates(keep=first) returns one row per distinct key. -/
theorem dropDuplicatesFirstBy_length (f : List Cell → List Cell) (l : List (List Cell)) :
    (dropDuplicatesFirstBy f l).length = (l.map f).toFinset.card := by
  unfold dropDuplicatesFirstBy
  rw [dropDupGo_length]
  simp

/-- Filling one column does not change the number of rows. -/
theorem fillStep_fst_length (dt : List Bool) (m : MissingMethod)
    (rows : List (List Cell)) (j : Nat) :
    (fillStep dt m rows j).1.length = rows.length := by
  unfold fillStep
  split <;> simp

/-- The fill loop does not change the number of rows. -/
theorem fillLoop_fst_length (dt : List Bool) (m : MissingMethod) (js : List Nat) :
    ∀ rows, (fillLoop dt m js rows).1.length = rows.length := by
  induction js with
  | nil => intro rows; rfl
  | cons j js ih =>
    intro rows
    simp only [fillLoop]
    rw [ih, fillStep_fst_length]

/-- Claim C4 (amended): with remove_duplicates enabled and a missing-value
policy that does not drop rows, the cleaned output has one row per distinct
subset-key group (all columns when the subset is absent); and when missing
handling is disabled the output rows are exactly the first occurrences of
the key groups. -/
theorem apply_cleaning_dedup_count (df : DataFrame) (cfg : CleaningConfig)
    (hrd : cfg.remove_duplicates = true)
    (hnd : ¬(cfg.handle_missing = true ∧ cfg.missing_method = MissingMethod.drop)) :
    (apply_cleaning df cfg).1.rows.length
      = (df.rows.map (dupProj cfg.duplicate_subset)).toFinset.card
    ∧ (cfg.handle_missing = false →
        (apply_cleaning df cfg).1.rows
          = firstOccurrencesBy (dupProj cfg.duplicate_subset) df.rows) := by
  rcases hhm : cfg.handle_missing with _ | _
  · simp only [apply_cleaning, hrd, hhm, if_true, Bool.false_eq_true, if_false]
    exact ⟨dropDuplicatesFirstBy_length _ _, fun _ => dropDuplicatesFirstBy_eq _ _⟩
  · have hdm : cfg.missing_method ≠ MissingMethod.drop := fun h => hnd ⟨hhm, h⟩
    rcases hmm : cfg.missing_method with _ | _ | _
    · simp only [apply_cleaning, hrd, hhm, hmm, if_true]
      refine ⟨?_, fun h => by simp at h⟩
      rw [fillLoop_fst_length]
      exact dropDuplicatesFirstBy_length _ _
    · simp only [apply_cleaning, hrd, hhm, hmm, if_true]
      refine ⟨?_, fun h => by simp at h⟩
      rw [fillLoop_fst_length]
      exact dropDuplicatesFirstBy_length _ _
    · exact absurd hmm hdm

/-- A one-column frame whose single row is null. -/
def dfNullRow : DataFrame := { colNames := ["a"], numericCol := [true], rows := [[none]] }

/-- Remove duplicates and also drop rows with missing values. -/
def cfgDropAll : CleaningConfig :=
  { remove_duplicates := true, duplicate_subset := none,
    handle_missing := true, missing_method := MissingMethod.drop }

/-- Counterexample for C4 as stated: with remove_duplicates enabled but the
drop missing policy also enabled, the output row count (0) is not the
distinct-group count (1), so the claim does not hold for every config with
remove_duplicates enabled. -/
theorem apply_cleaning_dedup_count_cex :
    cfgDropAll.remove_duplicates = true
    ∧ (apply_cleaning dfNullRow cfgDropAll).1.rows.length = 0
    ∧ (dfNullRow.rows.map (dupProj cfgDropAll.duplicate_subset)).toFinset.card = 1 := by
  decide

/-- Deduplicate on all columns, no missing handling. -/
def cfgDedupOnly : CleaningConfig :=
  { remove_duplicates := true, duplicate_subset := none,
    handle_missing := false, missing_method := MissingMethod.mean }

/-- Witness for C4 (amended): three rows with one duplicated pair reduce to
the two first occurrences. -/
theorem apply_cleaning_dedup_count_witness :
    cfgDedupOnly.remove_duplicates = true
    ∧ ¬(cfgDedupOnly.handle_missing = true ∧ cfgDedupOnly.missing_method = MissingMethod.drop)
    ∧ (apply_cleaning dfDup cfgDedupOnly).1.rows.length
        = (dfDup.rows.map (dupProj cfgDedupOnly.duplicate_subset)).toFinset.card
    ∧ (apply_cleaning dfDup cfgDedupOnly).1.rows
        = firstOccurrencesBy (dupProj cfgDedupOnly.duplicate_subset) dfDup.rows :=
  ⟨rfl, by decide,
   (apply_cleaning_dedup_count dfDup cfgDedupOnly rfl (by decide)).1,
   (apply_cleaning_dedup_count dfDup cfgDedupOnly rfl (by decide)).2 rfl⟩

/-- Every row kept by the keep-first scan is a row of the input. -/
theorem dropDupGo_mem (f : List Cell → List Cell) (l : List (List Cell)) :
    ∀ seen r, r ∈ dropDupGo f seen l → r ∈ l := by
  induction l with
  | nil => intro seen r h; simp [dropDupGo] at h
  | cons a l ih =>
    intro seen r h
    by_cases hc : f a ∈ seen
    · simp only [dropDupGo, if_pos hc] at h
      exact List.mem_cons_of_mem _ (ih _ _ h)
    · simp only [dropDupGo, if_neg hc, List.mem_cons] at h
      rcases h with rfl | h
      · exact List.mem_cons_self _ _
      · exact List.mem_cons_of_mem _ (ih _ _ h)

/-- Deduplication keeps at least the first row. -/
theorem dropDuplicatesFirstBy_ne_nil (f : List Cell → List Cell) (l : List (List Cell))
    (h : l ≠ []) : dropDuplicatesFirstBy f l ≠ [] := by
  cases l with
  | nil => exact absurd rfl h
  | cons a l => simp [dropDuplicatesFirstBy, dropDupGo]

/-- Setting one position leaves the default-read of another unchanged. -/
theorem getD_set_ne (l : List Cell) (j j2 : Nat) (v : Cell) (h : j ≠ j2) :
    (l.set j v).getD j2 none = l.getD j2 none := by
  simp [List.getD_eq_getElem?_getD, List.getElem?_set_ne h]

/-- A per-row update of column `j` leaves every other column unchanged. -/
theorem colOf_map_set (rows : List (List Cell)) (j j2 : Nat) (h : j ≠ j2)
    (g : List Cell → Cell) :
    colOf (rows.map (fun r => r.set j (g r))) j2 = colOf rows j2 := by
  unfold colOf
  rw [List.map_map]
  apply List.map_congr_left
  intro r _
  exact getD_set_ne r j j2 (g r) h

/-- One fill iteration at column `j` leaves every other column unchanged. -/
theorem fillStep_col_ne (dt : List Bool) (m : MissingMethod)
    (rows : List (List Cell)) (j j2 : Nat) (h : j ≠ j2) :
    colOf (fillStep dt m rows j).1 j2 = colOf rows j2 := by
  unfold fillStep
  split
  · exact colOf_map_set rows j j2 h _
  · rfl

/-- A fill iteration reports a fill exactly when its column has a null. -/
theorem fillStep_snd (dt : List Bool) (m : MissingMethod)
    (rows : List (List Cell)) (j : Nat) :
    (fillStep dt m rows j).2
      = decide (0 < (colOf rows j).countP (fun c => c.isNone)) := by
  unfold fillStep
  split
  next h => simp [h]
  next h => simp [h]

/-- filled_count equals the number of visited columns that hold a null. -/
theorem fillLoop_snd (dt : List Bool) (m : MissingMethod) (js : List Nat) :
    ∀ rows, js.Nodup →
      (fillLoop dt m js rows).2
        = js.countP (fun j => decide (0 < (colOf rows j).countP (fun c => c.isNone))) := by
  induction js with
  | nil => intro rows _; rfl
  | cons j js ih =>
    intro rows hnd
    rw [List.nodup_cons] at hnd
    obtain ⟨hj, hnd2⟩ := hnd
    simp only [fillLoop]
    rw [ih _ hnd2, List.countP_cons, fillStep_snd]
    have hcong : (js.countP fun j2 =>
          decide (0 < (colOf (fillStep dt m rows j).1 j2).countP (fun c => c.isNone)))
        = js.countP fun j2 => decide (0 < (colOf rows j2).countP (fun c => c.isNone)) := by
      apply List.countP_congr
      intro j2 hj2
      rw [fillStep_col_ne dt m rows j j2 (fun he => hj (he ▸ hj2))]
    rw [hcong]
    omega

/-- The empty-column fill value of a numeric all-null column is null, so the
fill loop leaves an all-null numeric column entirely null. -/
theorem fillLoop_preserves_allnull (dt : List Bool) (m : MissingMethod) (j : Nat)
    (hdt : dt.getD j false = true) (js : List Nat) :
    ∀ rows, (∀ r ∈ rows, r.getD j none = none) →
      ∀ r ∈ (fillLoop dt m js rows).1, r.getD j none = none := by
  induction js with
  | nil => intro rows h; exact h
  | cons j2 js ih =>
    intro rows h
    simp only [fillLoop]
    apply ih
    by_cases he : j2 = j
    · subst he
      unfold fillStep
      split
      · intro r hr
        rw [List.mem_map] at hr
        obtain ⟨r0, hr0, rfl⟩ := hr
        have hnull : r0.getD j2 none = none := h r0 hr0
        have hvs : (colOf rows j2).filterMap cellNum = [] := by
          rw [List.filterMap_eq_nil_iff]
          intro c hc
          unfold colOf at hc
          rw [List.mem_map] at hc
          obtain ⟨r1, hr1, rfl⟩ := hc
          rw [h r1 hr1]
          rfl
        have hnumFill : numFill m (colOf rows j2) = none := by
          unfold numFill
          rw [hvs]
          rfl
        have hcell : cellOr (r0.getD j2 none) (numFill m (colOf rows j2)) = none := by
          rw [hnull, hnumFill]
          rfl
        rw [hcell]
        by_cases hlen : j2 < r0.length
        · simp [List.getD_eq_getElem?_getD, List.getElem?_set_self hlen, cellOr]
        · rw [List.set_eq_of_length_le (by omega)]
          exact hnull
      · exact h
    · intro r hr
      have hmem : r.getD j none ∈ colOf (fillStep dt m rows j2).1 j :=
        List.mem_map_of_mem _ hr
      rw [fillStep_col_ne dt m rows j2 j he] at hmem
      unfold colOf at hmem
      rw [List.mem_map] at hmem
      obtain ⟨r0, hr0, heq⟩ := hmem
      rw [← heq]
      exact h r0 hr0

/-- The fill loop over all columns of a frame with an all-null numeric
column `j`: the column stays null, filled_count is positive, and it counts
exactly the columns holding a null. -/
theorem fill_branch (dt : List Bool) (meth : MissingMethod) (nCols j : Nat)
    (rows1 : List (List Cell)) (hj : j < nCols) (hdt : dt.getD j false = true)
    (h1 : ∀ r ∈ rows1, r.getD j none = none) (hne1 : rows1 ≠ []) :
    (∀ r ∈ (fillLoop dt meth (List.range nCols) rows1).1, r.getD j none = none)
    ∧ 0 < (fillLoop dt meth (List.range nCols) rows1).2
    ∧ (fillLoop dt meth (List.range nCols) rows1).2
        = (List.range nCols).countP
            (fun j2 => decide (0 < (colOf rows1 j2).countP (fun c => c.isNone))) := by
  have hsnd := fillLoop_snd dt meth (List.range nCols) rows1 (List.nodup_range _)
  have hpredj : decide (0 < (colOf rows1 j).countP (fun c => c.isNone)) = true := by
    rw [decide_eq_true_iff]
    have hcnt : (colOf rows1 j).countP (fun c => c.isNone) = (colOf rows1 j).length := by
      apply List.countP_eq_length.mpr
      intro c hc
      unfold colOf at hc
      rw [List.mem_map] at hc
      obtain ⟨r0, hr0, rfl⟩ := hc
      rw [h1 r0 hr0]
      rfl
    rw [hcnt]
    unfold colOf
    rw [List.length_map]
    exact List.length_pos.mpr hne1
  refine ⟨fillLoop_preserves_allnull dt meth j hdt _ rows1 h1, ?_, hsnd⟩
  rw [hsnd]
  apply List.countP_pos_iff.mpr
  exact ⟨j, List.mem_range.mpr hj, hpredj⟩

/-- Claim C10: with handle_missing enabled and a mean or median policy, a
numeric column whose values are all null stays entirely null in the output
(the fill value of the empty observation set is itself null), while the
column is still counted in filled_count, which reaches the log entry. -/
theorem fill_all_null_numeric_column (df : DataFrame) (cfg : CleaningConfig) (j : Nat)
    (hm : cfg.handle_missing = true)
    (hmeth : cfg.missing_method ≠ MissingMethod.drop)
    (hj : j < df.colNames.length)
    (hnum : df.numericCol.getD j false = true)
    (hcol : ∀ r ∈ df.rows, r.getD j none = none)
    (hrows : df.rows ≠ []) :
    (∀ r ∈ (apply_cleaning df cfg).1.rows, r.getD j none = none)
    ∧ ∃ m, LogEntry.filledColumns m ∈ (apply_cleaning df cfg).2
        ∧ m = (List.range df.colNames.length).countP
            (fun j2 => decide (0 < (colOf
              (if cfg.remove_duplicates then
                dropDuplicatesFirstBy (dupProj cfg.duplicate_subset) df.rows
               else df.rows) j2).countP (fun c => c.isNone)))
        ∧ 1 ≤ m := by
  rcases hrd : cfg.remove_duplicates with _ | _ <;>
    rcases hmm : cfg.missing_method with _ | _ | _ <;>
      try exact absurd hmm hmeth
  all_goals
    simp only [apply_cleaning, hrd, hm, hmm, if_true, Bool.false_eq_true, if_false]
  case false.mean =>
    obtain ⟨ha, hb, hc⟩ := fill_branch df.numericCol MissingMethod.mean
      df.colNames.length j df.rows hj hnum hcol hrows
    refine ⟨ha, ⟨_, ?_, hc, hb⟩⟩
    simp [hb]
  case false.median =>
    obtain ⟨ha, hb, hc⟩ := fill_branch df.numericCol MissingMethod.median
      df.colNames.length j df.rows hj hnum hcol hrows
    refine ⟨ha, ⟨_, ?_, hc, hb⟩⟩
    simp [hb]
  case true.mean =>
    obtain ⟨ha, hb, hc⟩ := fill_branch df.numericCol MissingMethod.mean
      df.colNames.length j (dropDuplicatesFirstBy (dupProj cfg.duplicate_subset) df.rows)
      hj hnum (fun r hr => hcol r (dropDupGo_mem _ _ _ r hr))
      (dropDuplicatesFirstBy_ne_nil _ _ hrows)
    refine ⟨ha, ⟨_, ?_, hc, hb⟩⟩
    simp [hb]
  case true.median =>
    obtain ⟨ha, hb, hc⟩ := fill_branch df.numericCol MissingMethod.median
      df.colNames.length j (dropDuplicatesFirstBy (dupProj cfg.duplicate_subset) df.rows)
      hj hnum (fun r hr => hcol r (dropDupGo_mem _ _ _ r hr))
      (dropDuplicatesFirstBy_ne_nil _ _ hrows)
    refine ⟨ha, ⟨_, ?_, hc, hb⟩⟩
    simp [hb]

/-- A one-column numeric frame whose column is entirely null. -/
def dfAllNull : DataFrame := { colNames := ["a"], numericCol := [true], rows := [[none], [none]] }

/-- handle_missing with the mean policy only. -/
def cfgFillMean : CleaningConfig :=
  { remove_duplicates := false, duplicate_subset := none,
    handle_missing := true, missing_method := MissingMethod.mean }

/-- Witness for C10: an all-null numeric column stays null and is counted
in the fill log. -/
theorem fill_all_null_numeric_column_witness :
    (∀ r ∈ (apply_cleaning dfAllNull cfgFillMean).1.rows, r.getD 0 none = none)
    ∧ ∃ m, LogEntry.filledColumns m ∈ (apply_cleaning dfAllNull cfgFillMean).2
        ∧ m = (List.range dfAllNull.colNames.length).countP
            (fun j2 => decide (0 < (colOf
              (if cfgFillMean.remove_duplicates then
                dropDuplicatesFirstBy (dupProj cfgFillMean.duplicate_subset) dfAllNull.rows
               else dfAllNull.rows) j2).countP (fun c => c.isNone)))
        ∧ 1 ≤ m :=
  fill_all_null_numeric_column dfAllNull cfgFillMean 0 rfl (by decide) (by decide) (by decide)
    (by decide) (by decide)

/-- Concrete stand-in for the scipy correlation kernels, used by witnesses
and the counterexample; its correlation kernels are symmetric, as the real
ones are. -/
def spCorr0 : SciPyCorr :=
  { shapiro := fun _ => 0, kstest := fun _ => 0,
    pearson := fun _ _ => (0, 0), spearman := fun _ _ => (0, 0) }

/-- A non-numeric variable with only two non-null paired observations. -/
def corrCexVar1 : CorrVar := { numericDtype := false, values := [some 1, some 2] }

/-- A numeric companion variable with the same two rows. -/
def corrCexVar2 : CorrVar := { numericDtype := true, values := [some 1, some 2] }

/-- Counterexample for C6 as stated: with a non-numeric variable but only
two paired observations, correlation_analysis returns the
insufficient-sample error, not the type-mismatch error — the sample-size
check of correlation.py line 19 runs before the dtype check of line 22. -/
theorem correlation_type_check_cex :
    corrCexVar1.numericDtype = false
    ∧ correlation_analysis spCorr0 corrCexVar1 corrCexVar2 = CorrOutcome.insufficientSample 2
    ∧ (correlation_analysis spCorr0 corrCexVar1 corrCexVar2).isTypeMismatch = false :=
  ⟨rfl, rfl, rfl⟩

/-- Claim C6 (amended): when the paired non-null observations number at
least 3 and at least one of the two variables is non-numeric,
correlation_analysis fails with the type-mismatch error carrying the two
dtype descriptions and computes no correlation; with fewer than 3 pairs the
insufficient-sample error is returned first. -/
theorem correlation_type_check (sp : SciPyCorr) (v1 v2 : CorrVar)
    (hn : 3 ≤ (corrPairs v1.values v2.values).length)
    (ht : v1.numericDtype = false ∨ v2.numericDtype = false) :
    correlation_analysis sp v1 v2
      = CorrOutcome.typeMismatch v1.numericDtype v2.numericDtype := by
  unfold correlation_analysis
  rw [if_neg (by omega), if_pos]
  rcases ht with h | h <;> simp [h]

/-- A non-numeric variable with three non-null observations. -/
def corrWVar1 : CorrVar := { numericDtype := false, values := [some 1, some 2, some 3] }

/-- A numeric variable with three non-null observations. -/
def corrWVar2 : CorrVar := { numericDtype := true, values := [some 4, some 5, some 6] }

/-- Witness for C6 (amended): three pairs, first variable non-numeric. -/
theorem correlation_type_check_witness :
    3 ≤ (corrPairs corrWVar1.values corrWVar2.values).length
    ∧ correlation_analysis spCorr0 corrWVar1 corrWVar2
        = CorrOutcome.typeMismatch false true :=
  ⟨by decide, correlation_type_check spCorr0 corrWVar1 corrWVar2 (by decide) (Or.inl rfl)⟩

/-- Swapping the two variables swaps the components of every retained pair. -/
theorem corrPairs_swap (v1 : List (Option ℚ)) :
    ∀ v2, corrPairs v2 v1 = (corrPairs v1 v2).map Prod.swap := by
  induction v1 with
  | nil => intro v2; cases v2 <;> simp [corrPairs]
  | cons a l ih =>
    intro v2
    cases v2 with
    | nil => simp [corrPairs]
    | cons b m =>
      simp only [corrPairs, List.zip_cons_cons, List.filterMap_cons] at *
      cases a <;> cases b <;> simp_all

/-- Claim C7: on a valid numeric pair (both dtypes numeric, at least three
paired observations), and given that the library correlation kernels are
symmetric in their two arguments (as pearsonr and spearmanr are), swapping
the variables selects the same method and reports the same r and p; only
the per-variable normality flags swap position. -/
theorem correlation_symmetric (sp : SciPyCorr) (v1 v2 : CorrVar)
    (h1 : v1.numericDtype = true) (h2 : v2.numericDtype = true)
    (hn : 3 ≤ (corrPairs v1.values v2.values).length)
    (hp : ∀ x y, sp.pearson x y = sp.pearson y x)
    (hs : ∀ x y, sp.spearman x y = sp.spearman y x) :
    ∃ n b1 b2 up r p,
      correlation_analysis sp v1 v2 = CorrOutcome.report n b1 b2 up r p
      ∧ correlation_analysis sp v2 v1 = CorrOutcome.report n b2 b1 up r p := by
  have hswap := corrPairs_swap v1.values v2.values
  have hlen : (corrPairs v2.values v1.values).length
      = (corrPairs v1.values v2.values).length := by
    rw [hswap, List.length_map]
  have hx : (corrPairs v2.values v1.values).map Prod.fst
      = (corrPairs v1.values v2.values).map Prod.snd := by
    rw [hswap, List.map_map]
    rfl
  have hy : (corrPairs v2.values v1.values).map Prod.snd
      = (corrPairs v1.values v2.values).map Prod.fst := by
    rw [hswap, List.map_map]
    rfl
  refine ⟨(corrPairs v1.values v2.values).length,
    checkNormality sp ((corrPairs v1.values v2.values).map Prod.fst),
    checkNormality sp ((corrPairs v1.values v2.values).map Prod.snd),
    checkNormality sp ((corrPairs v1.values v2.values).map Prod.fst)
      && checkNormality sp ((corrPairs v1.values v2.values).map Prod.snd),
    (if checkNormality sp ((corrPairs v1.values v2.values).map Prod.fst)
        && checkNormality sp ((corrPairs v1.values v2.values).map Prod.snd)
      then sp.pearson ((corrPairs v1.values v2.values).map Prod.fst)
        ((corrPairs v1.values v2.values).map Prod.snd)
      else sp.spearman ((corrPairs v1.values v2.values).map Prod.fst)
        ((corrPairs v1.values v2.values).map Prod.snd)).1,
    (if checkNormality sp ((corrPairs v1.values v2.values).map Prod.fst)
        && checkNormality sp ((corrPairs v1.values v2.values).map Prod.snd)
      then sp.pearson ((corrPairs v1.values v2.values).map Prod.fst)
        ((corrPairs v1.values v2.values).map Prod.snd)
      else sp.spearman ((corrPairs v1.values v2.values).map Prod.fst)
        ((corrPairs v1.values v2.values).map Prod.snd)).2, ?_, ?_⟩
  · unfold correlation_analysis
    rw [if_neg (by omega), if_neg (by simp [h1, h2])]
  · unfold correlation_analysis
    rw [if_neg (by rw [hlen]; omega), if_neg (by simp [h1, h2])]
    simp only [hlen, hx, hy]
    rw [Bool.and_comm]
    by_cases hup : (checkNormality sp ((corrPairs v1.values v2.values).map Prod.fst)
        && checkNormality sp ((corrPairs v1.values v2.values).map Prod.snd)) = true
    · rw [hup]
      simp only [if_true, hp]
    · rw [Bool.not_eq_true] at hup
      rw [hup]
      simp only [Bool.false_eq_true, if_false, hs]

/-- Two numeric three-observation variables for the symmetry witness. -/
def corrSymVar1 : CorrVar := { numericDtype := true, values := [some 1, some 2, some 3] }

/-- Companion numeric variable for the symmetry witness. -/
def corrSymVar2 : CorrVar := { numericDtype := true, values := [some 4, some 5, some 6] }

/-- Witness for C7 under the constant (hence symmetric) kernel stand-in. -/
theorem correlation_symmetric_witness :
    ∃ n b1 b2 up r p,
      correlation_analysis spCorr0 corrSymVar1 corrSymVar2 = CorrOutcome.report n b1 b2 up r p
      ∧ correlation_analysis spCorr0 corrSymVar2 corrSymVar1
          = CorrOutcome.report n b2 b1 up r p :=
  correlation_symmetric spCorr0 corrSymVar1 corrSymVar2 rfl rfl (by decide)
    (fun _ _ => rfl) (fun _ _ => rfl)

/-- Claim C8: given the sklearn guarantee that KMeans labels lie in
[0, k), a clustering call with at least k usable rows attaches only labels
in 1..k to the returned rows, and a call with fewer than k usable rows
fails with the insufficient-sample error carrying the usable count. -/
theorem kmeans_labels_range (sk : SKLearnKMeans) (rows : List (List (Option ℚ))) (k : Nat)
    (hlab : ∀ l ∈ sk.kmLabels k (sk.scale (kmeansUsable rows)), l < k) :
    ((kmeansUsable rows).length < k →
      run_kmeans_clustering sk rows k
        = KMeansOutcome.insufficientSample (kmeansUsable rows).length k)
    ∧ (k ≤ (kmeansUsable rows).length →
      ∀ lab ∈ (run_kmeans_clustering sk rows k).clusterLabels, 1 ≤ lab ∧ lab ≤ k) := by
  constructor
  · intro h
    unfold run_kmeans_clustering
    rw [if_pos h]
  · intro h lab hmem
    unfold run_kmeans_clustering at hmem
    rw [if_neg (by omega)] at hmem
    unfold KMeansOutcome.clusterLabels at hmem
    rw [List.mem_map] at hmem
    obtain ⟨⟨r, l⟩, hz, rfl⟩ := hmem
    have hl2 := (List.of_mem_zip hz).2
    rw [List.mem_map] at hl2
    obtain ⟨l0, hl0, rfl⟩ := hl2
    have := hlab l0 hl0
    omega

/-- Concrete stand-in for the sklearn kernels: identity scaler and a
constant-zero labeller, whose labels satisfy the [0, k) contract for k = 1. -/
def sk0 : SKLearnKMeans :=
  { scale := id, unscale := id,
    kmLabels := fun _ X => X.map (fun _ => 0),
    kmIter := fun _ _ => 0, kmInertia := fun _ _ => 0,
    kmCenters := fun _ _ => [] }

/-- Witness for C8: two usable rows, k = 1, labels all equal 1 ∈ [1, 1]. -/
theorem kmeans_labels_range_witness :
    (run_kmeans_clustering sk0 [[some 1], [some 2]] 1).clusterLabels = [1, 1]
    ∧ (1 ≤ 1 ∧ 1 ≤ 1) :=
  ⟨rfl,
   (kmeans_labels_range sk0 [[some 1], [some 2]] 1 (by decide)).2 (by decide) 1 (by decide)⟩

/-- Constant stand-in for the anova kernels. -/
def kerAnova0 : AnovaKernels String :=
  { levene := fun _ => (0, 0), fOneway := fun _ => (0, 0), tukeyTable := fun _ _ => [] }

/-- Claim C9: one_way_anova builds the Tukey inputs by dropping nulls from
the value and grouping columns independently; on any input passing the
group-count (3 or more distinct groups) and per-group size (2 or more)
checks but with differing non-null counts in the two columns, the
statsmodels length check raises, so the call propagates an exception
instead of returning a report — for every kernel outcome, hence in
particular when the omnibus p-value would be at least 0.05. -/
theorem anova_tukey_length_mismatch {G : Type} [DecidableEq G] (ker : AnovaKernels G)
    (gc : List (Option G)) (vc : List (Option ℚ))
    (h3 : 3 ≤ (pdUnique (gc.filterMap id)).length)
    (h2 : ∀ g ∈ pdUnique (gc.filterMap id), 2 ≤ (groupValues gc vc g).length)
    (hne : (vc.filterMap id).length ≠ (gc.filterMap id).length) :
    one_way_anova ker gc vc
      = Except.error "endog and groups must have the same length" := by
  unfold one_way_anova
  rw [if_neg (by omega)]
  have hfind : (pdUnique (gc.filterMap id)).find?
      (fun g => decide ((groupValues gc vc g).length < 2)) = none := by
    rw [List.find?_eq_none]
    intro g hg
    have := h2 g hg
    simp only [decide_eq_true_eq]
    omega
  rw [hfind]
  unfold pairwise_tukeyhsd
  rw [if_neg hne]
  rfl

/-- Grouping column for the C9 witness: three two-observation groups plus
one null group cell. -/
def gcAnova : List (Option String) :=
  [some "A", some "A", some "B", some "B", some "C", some "C", none]

/-- Value column for the C9 witness: seven non-null values, one more than
the six non-null group cells. -/
def vcAnova : List (Option ℚ) :=
  [some 1, some 2, some 3, some 4, some 5, some 6, some 7]

/-- Witness for C9: all validation passes, yet the call raises. -/
theorem anova_tukey_length_mismatch_witness :
    one_way_anova kerAnova0 gcAnova vcAnova
      = Except.error "endog and groups must have the same length" :=
  anova_tukey_length_mismatch kerAnova0 gcAnova vcAnova (by decide) (by decide) (by decide)

end StatEase
